import Mathlib

/-!
Verification of the session/token lifecycle and real-time event
reconciliation layer of the blog-platform front end.

The TypeScript source is shallowly embedded: each service method that the
claims mention is translated into a pure Lean function over explicit state.
Browser primitives (`atob`, `JSON.parse`, `Date.now`, the HTTP transport,
the socket.io transport) are modelled by their observable results, passed
in as parameters; everything the repository's own code does with those
results is translated line by line.
-/

namespace Blog

/-! ## JWT token model (`AuthService.isTokenExpired`, `auth.service.ts:168-180`)

A JWT string is represented by the result of the browser pipeline
`JSON.parse(atob(token.split('.')[1]))` applied to it:

* `none`                — the pipeline throws (bad base64url, bad JSON,
                          missing payload segment);
* `some none`           — the payload parses but has no numeric `exp`
                          claim (`payload.exp` is `undefined`, so
                          `payload.exp * 1000` is `NaN` and every `<`
                          comparison on it is `false` in JS);
* `some (some exp)`     — the payload parses with `exp` claim `exp`
                          (epoch seconds).

A token *argument* additionally may be `null`: `none` below. -/

/-- Decode result of a present token string (see module comment). -/
def JwtDecode : Type := Option (Option Int)

/-- `AuthService.isTokenExpired(token)`:
`if (!token) return true; try { const payload = JSON.parse(atob(token.split('.')[1]));
const exp = payload.exp * 1000; return exp < Date.now(); } catch { return true; }`.
`nowMs` is `Date.now()` in milliseconds. -/
def isTokenExpired (token : Option JwtDecode) (nowMs : Int) : Bool :=
  match token with
  | none => true
  | some none => true
  | some (some none) => false
  | some (some (some exp)) => decide (exp * 1000 < nowMs)

/-! ## Comment tree (`article-detail.component.ts`)

Only the fields the tree operations touch are kept: `_id` (called `cid`
here), `article`, `replies`; the remaining payload fields (content,
author, likes, …) ride along unchanged and are abstracted into a single
`payload` string. -/

/-- A node of the threaded-comment tree. -/
inductive Comment : Type where
  | node (cid : String) (article : String) (payload : String) (replies : List Comment)

/-- The comment's `_id` field. -/
def Comment.cid : Comment → String
  | .node i _ _ _ => i

/-- The comment's `article` field (id of the owning article). -/
def Comment.articleOf : Comment → String
  | .node _ a _ _ => a

/-- The comment's `replies` field. -/
def Comment.replies : Comment → List Comment
  | .node _ _ _ rs => rs

/-- JavaScript `Array.prototype.findIndex`, with `-1` rendered as `none`. -/
def jsFindIndex (p : α → Bool) : List α → Option Nat
  | [] => none
  | x :: xs => if p x then some 0 else (jsFindIndex p xs).map (· + 1)

/-- The article slice of the detail page's state that the comment events
touch: its `commentCount` field. -/
structure Article where
  commentCount : Int
deriving DecidableEq

/-- State of `ArticleDetailComponent` read and written by the socket
comment handlers: `articleIdValue`, the `comments` signal, and the
`article` signal. -/
structure DetailState where
  articleId : String
  comments : List Comment
  article : Option Article

/-- A `newComment` socket event (`NewCommentEvent`). -/
structure NewCommentEvent where
  comment : Comment
  parentCommentId : Option String

/-- `ArticleDetailComponent.addReplyToComment`'s inner `findAndAdd`
(`article-detail.component.ts:604-641`): map over the list; on the parent
(matched by `_id`), append the reply unless a reply with the same `_id`
exists, in which case replace it at its index; otherwise recurse into
non-empty `replies`. -/
def findAndAdd (parentId : String) (reply : Comment) : List Comment → List Comment
  | [] => []
  | Comment.node i a p rs :: rest =>
    (if i == parentId then
      match jsFindIndex (fun r => r.cid == reply.cid) rs with
      | none => Comment.node i a p (rs ++ [reply])
      | some idx => Comment.node i a p (rs.set idx reply)
    else if rs.length > 0 then
      Comment.node i a p (findAndAdd parentId reply rs)
    else
      Comment.node i a p rs) :: findAndAdd parentId reply rest

/-- `this.article.update(current => current ? { ...current, commentCount:
(current.commentCount || 0) + 1 } : current)`. -/
def bumpCommentCount (a : Option Article) : Option Article :=
  a.map fun art => { art with commentCount := art.commentCount + 1 }

/-- The `onNewComment` subscription handler in
`ArticleDetailComponent.setupSocketListeners`
(`article-detail.component.ts:242-278`). -/
def handleNewComment (st : DetailState) (ev : NewCommentEvent) : DetailState :=
  if ev.comment.articleOf == st.articleId then
    match ev.parentCommentId with
    | some pid =>
      { st with
        comments := findAndAdd pid ev.comment st.comments,
        article := bumpCommentCount st.article }
    | none =>
      match jsFindIndex (fun c => c.cid == ev.comment.cid) st.comments with
      | some _ => st
      | none =>
        { st with
          comments := st.comments ++ [ev.comment],
          article := bumpCommentCount st.article }
  else st

/-- `ArticleDetailComponent.countAllComments`
(`article-detail.component.ts:721-729`): `comments.length` plus, for every
entry with non-empty `replies`, the recursive count of those replies.
The source's `length + for`-loop accumulation is unrolled one list cell at
a time. -/
def countAllComments : List Comment → Nat
  | [] => 0
  | Comment.node _ _ _ rs :: rest =>
    1 + (if rs.length > 0 then countAllComments rs else 0) + countAllComments rest

/-- The inner `findCommentAndCount` of
`ArticleDetailComponent.removeCommentFromList`
(`article-detail.component.ts:668-686`): first node matching the id (in
the traversal order: each node before its replies) together with
`1 + countAllComments(replies)`; `(none, 1)` when the id is absent. -/
def findCommentAndCount (cid : String) : List Comment → Option Comment × Nat
  | [] => (none, 1)
  | Comment.node i a p rs :: rest =>
    if i == cid then
      (some (Comment.node i a p rs), 1 + (if rs.length > 0 then countAllComments rs else 0))
    else if rs.length > 0 then
      match findCommentAndCount cid rs with
      | (some f, k) => (some f, k)
      | (none, _) => findCommentAndCount cid rest
    else findCommentAndCount cid rest

/-- The inner `findAndRemove` of
`ArticleDetailComponent.removeCommentFromList`
(`article-detail.component.ts:691-703`): filter out nodes with the id at
every level (the source filters each level then recurses into survivors;
here the two passes over one level are fused). -/
def findAndRemove (cid : String) : List Comment → List Comment
  | [] => []
  | Comment.node i a p rs :: rest =>
    if i == cid then findAndRemove cid rest
    else Comment.node i a p (findAndRemove cid rs) :: findAndRemove cid rest

/-- `ArticleDetailComponent.removeCommentFromList`
(`article-detail.component.ts:665-716`). -/
def removeCommentFromList (st : DetailState) (cid : String) : DetailState :=
  let commentsToRemove := (findCommentAndCount cid st.comments).2
  { st with
    comments := findAndRemove cid st.comments,
    article := st.article.map fun a =>
      { a with commentCount := max 0 (a.commentCount - (commentsToRemove : Int)) } }

mutual

/-- Spec-side size of a subtree: "the deleted comment plus all its nested
replies, counted recursively". -/
def subtreeSize : Comment → Nat
  | .node _ _ _ rs => 1 + subtreeSizeList rs

/-- Sum of `subtreeSize` over a forest. -/
def subtreeSizeList : List Comment → Nat
  | [] => 0
  | c :: rest => subtreeSize c + subtreeSizeList rest

end

/-- Whether a node with the given `_id` occurs anywhere in the forest. -/
def containsComment (cid : String) : List Comment → Bool
  | [] => false
  | Comment.node i _ _ rs :: rest =>
    i == cid || containsComment cid rs || containsComment cid rest

/-! ## Persisted session store (`AuthService`, `auth.service.ts`)

`localStorage`, restricted to the four keys this code touches. -/

/-- The four persisted keys: `token`, `refreshToken`, `user`,
`viewedArticles` (each `none` when the key is absent). -/
structure SessionStore where
  token : Option String
  refreshToken : Option String
  user : Option String
  viewedArticles : Option String
deriving DecidableEq

/-- `AuthService.clearLocalStorage` (`auth.service.ts:89-94`): removes all
four keys. -/
def clearLocalStorage (_s : SessionStore) : SessionStore :=
  { token := none, refreshToken := none, user := none, viewedArticles := none }

/-- Outcome of the fire-and-forget `POST /auth/logout` call. -/
inductive ServerResult where
  | ok
  | err
deriving DecidableEq

/-- `AuthService.logout` (`auth.service.ts:61-87`): read the token, clear
localStorage immediately, then (when a token existed) fire the server
logout whose `next`/`error` handlers leave the store untouched. -/
def logout (s : SessionStore) (server : ServerResult) : SessionStore :=
  let token := s.token
  let s1 := clearLocalStorage s
  match token with
  | none => s1
  | some _ =>
    match server with
    | .ok => s1
    | .err => s1

/-! ## Realtime channel (`SocketService`, `socket.service.ts`) -/

/-- A socket.io client handle; `connected` flips to true only when the
asynchronous `connect` event fires (false right after `io(...)`). -/
structure SocketHandle where
  connected : Bool
deriving DecidableEq

/-- `SocketService` connection state, plus two instrumentation counters:
`ioCalls` counts invocations of `io(this.socketUrl, {...})` (connections
opened) and `listenerSetups` counts the times the event-listener set was
actually installed by `setupEventListeners`. -/
structure SocketState where
  socket : Option SocketHandle
  isConnecting : Bool
  listenersSetup : Bool
  ioCalls : Nat
  listenerSetups : Nat
deriving DecidableEq

/-- `SocketService.isConnected` (`socket.service.ts:250-252`):
`this.socket?.connected ?? false`. -/
def SocketState.isConnected (s : SocketState) : Bool :=
  match s.socket with
  | some sock => sock.connected
  | none => false

/-- `SocketService.setupEventListeners` (`socket.service.ts:254-265`,
guard part): returns early when no socket or when `listenersSetup` is
already true; otherwise installs the listener set once. -/
def setupEventListeners (s : SocketState) : SocketState :=
  match s.socket with
  | none => s
  | some _ =>
    if s.listenersSetup then s
    else { s with listenersSetup := true, listenerSetups := s.listenerSetups + 1 }

/-- `SocketService.connect` (`socket.service.ts:50-98`): no-op when
already connected; no-op when `isConnecting`; otherwise clean up a stale
non-connected socket, mark `isConnecting`, open a fresh socket via
`io(...)` (not yet connected), and run `setupEventListeners`. -/
def connect (s : SocketState) : SocketState :=
  if s.isConnected then s
  else if s.isConnecting then s
  else
    let s1 :=
      match s.socket with
      | some sock =>
        if !sock.connected then { s with socket := none, listenersSetup := false }
        else s
      | none => s
    let s2 := { s1 with
      isConnecting := true,
      socket := some { connected := false },
      ioCalls := s1.ioCalls + 1 }
    setupEventListeners s2

/-! ## Single-flight refresh coordination
(`AuthInterceptor.handleTokenRefresh`, `part_004:110-176`, and
`AppComponent.startTokenExpirationCheck`, `app.component.ts:98-181`)

The interceptor guards its refresh with its own private `isRefreshing`
flag and a `BehaviorSubject` holding the latest refreshed access token;
the app component's once-per-second expiry watch guards its *direct*
`authService.refreshToken()` call with a *separate* private
`isRefreshing` flag (`/auth/refresh` is on the interceptor's skip list,
so the watch's call never passes through the interceptor's coordination).
`networkRefreshCalls` counts `POST /auth/refresh` requests issued. -/

/-- Combined coordination state of the two refresh call sites. -/
structure RefreshCoordState where
  interceptorRefreshing : Bool
  appRefreshing : Bool
  subjectValue : Option String
  waiters : List Nat
  networkRefreshCalls : Nat
  delivered : List (Nat × String)
deriving DecidableEq

/-- Entry of caller `caller` into `AuthInterceptor.handleTokenRefresh`
(`part_004:110-176`). When no interceptor refresh is pending: set the
flag, reset the subject, and — unless the stored refresh token is missing
or locally expired (early error returns) — issue the network refresh.
When one is pending: subscribe to the subject (`filter token != null`,
`take(1)`), i.e. join the waiter queue. -/
def interceptorRefresh (s : RefreshCoordState) (caller : Nat)
    (hasRefreshToken refreshTokenExpired : Bool) : RefreshCoordState :=
  if !s.interceptorRefreshing then
    let s1 := { s with interceptorRefreshing := true, subjectValue := none }
    if !hasRefreshToken then { s1 with interceptorRefreshing := false }
    else if refreshTokenExpired then { s1 with interceptorRefreshing := false }
    else { s1 with networkRefreshCalls := s1.networkRefreshCalls + 1 }
  else { s with waiters := s.waiters ++ [caller] }

/-- One tick of `AppComponent.startTokenExpirationCheck`'s `setInterval`
(`app.component.ts:106-178`), reduced to its refresh decision:
`accessExpired` is `accessExp && now >= accessExp`; when it holds and the
component's own `isRefreshing` flag is clear, the tick sets the flag and
calls `authService.refreshToken()` directly (a network refresh). -/
def watchTick (s : RefreshCoordState) (accessExpired : Bool) : RefreshCoordState :=
  if accessExpired && !s.appRefreshing then
    { s with appRefreshing := true, networkRefreshCalls := s.networkRefreshCalls + 1 }
  else s

/-- The interceptor's refresh resolving with access token `tok`
(`part_004:131-151`): clear the flag, push `tok` into the subject; every
queued waiter's `filter`/`take(1)` subscription fires with this same
`tok`. -/
def interceptorRefreshResolved (s : RefreshCoordState) (tok : String) : RefreshCoordState :=
  { s with
    interceptorRefreshing := false,
    subjectValue := some tok,
    delivered := s.delivered ++ s.waiters.map (fun w => (w, tok)),
    waiters := [] }

/-! ## String helpers for error-message matching -/

/-- JavaScript `String.prototype.includes`. -/
def jsIncludes (s pat : String) : Bool :=
  (List.range (s.data.length + 1)).any fun i => pat.data.isPrefixOf (s.data.drop i)

/-- JavaScript `String.prototype.toLowerCase` (ASCII range, as used on the
server's error messages). -/
def jsToLower (s : String) : String := s.map Char.toLower

/-- `error.error?.error?.includes(pat)` with optional chaining: `false`
when the message is absent. -/
def optIncludes (msg : Option String) (pat : String) : Bool :=
  match msg with
  | some m => jsIncludes m pat
  | none => false

/-! ## Refresh-failure handling (C9)

Two sites handle a failed refresh: the interceptor's `catchError`
(`part_004:152-166`) and the expiry watch's `error` callback
(`app.component.ts:130-164`). -/

/-- The interceptor's test
`error.status === 401 || error.error?.error?.includes('expired') ||
error.error?.error?.includes('invalid')` (`part_004:158`). -/
def interceptorFailureSignalsInvalid (status : Int) (msg : Option String) : Bool :=
  status == 401 || optIncludes msg "expired" || optIncludes msg "invalid"

/-- The interceptor's `catchError` effect on the persisted session
(`part_004:152-166`): `handleSessionExpired()` (which runs
`clearLocalStorage`) only on an explicit invalid/expired signal;
otherwise the store is untouched. -/
def interceptorOnRefreshError (store : SessionStore) (status : Int)
    (msg : Option String) : SessionStore :=
  if interceptorFailureSignalsInvalid status msg then clearLocalStorage store
  else store

/-- The watch's test `error.status === 401 ||
error.error?.error?.toLowerCase().includes('invalid') ||
...includes('expired')` (`app.component.ts:135-137`). -/
def watchFailureSignalsInvalid (status : Int) (msg : Option String) : Bool :=
  status == 401 ||
    optIncludes (msg.map jsToLower) "invalid" ||
    optIncludes (msg.map jsToLower) "expired"

/-- The expiry watch's refresh `error` callback
(`app.component.ts:130-164`), reduced to its logout decision (`true` =
`this.logout()` runs, clearing the persisted session). `now` is
`Math.floor(Date.now() / 1000)`. `refreshTok` is the stored refresh
token: `none` = absent, `some none` = unparseable, `some (some none)` =
parses without `exp`, `some (some (some exp))` = parses with `exp`. -/
def watchOnRefreshError (now : Int) (status : Int) (msg : Option String)
    (refreshTok : Option JwtDecode) : Bool :=
  if watchFailureSignalsInvalid status msg then true
  else
    match refreshTok with
    | none => true
    | some none => true
    | some (some none) => false
    | some (some (some exp)) => !(exp == 0) && decide (now ≥ exp)

/-- The watch's refresh `error` callback as a store transformer:
`logout()` calls `AuthService.logout`, whose first effect is
`clearLocalStorage`. -/
def watchOnRefreshErrorStore (store : SessionStore) (now status : Int)
    (msg : Option String) (refreshTok : Option JwtDecode)
    (server : ServerResult) : SessionStore :=
  if watchOnRefreshError now status msg refreshTok then logout store server
  else store

/-! ## Interceptor 401→refresh→retry pipeline (C8)
(`AuthInterceptor.intercept`, `part_004:22-88`, and
`handleTokenRefresh`, `part_004:110-176`)

The RxJS chain for one protected request that was sent with an attached,
locally-unexpired bearer token is embedded as a function of the
transport's responses: the original request's outcome, the refresh
endpoint's outcome, and the retried request's outcome. The retry is
issued by `next.handle(retryRequest)` inside `switchMap`, so its error —
caught by the `catchError` at `part_004:152` — is re-thrown without
entering the 401 branch of `intercept` again. -/

/-- Outcome of one `next.handle(request)` round-trip. -/
inductive HttpOutcome where
  | success (body : String)
  | httpError (status : Int) (msg : Option String)
deriving DecidableEq

/-- Outcome of `authService.refreshToken()`'s network call. -/
inductive RefreshOutcome where
  | refreshed (accessToken : String)
  | refreshedNoToken
  | refreshFailed (status : Int) (msg : Option String)
deriving DecidableEq

/-- Error surfaced to the subscriber: an HTTP error response or a thrown
`Error(message)`. -/
inductive InterceptError where
  | http (status : Int) (msg : Option String)
  | js (message : String)
deriving DecidableEq

/-- Observable result of the intercepted request together with the number
of requests sent through `next.handle` and of refresh network calls. -/
structure InterceptTrace where
  result : Except InterceptError String
  requestsSent : Nat
  refreshNetworkCalls : Nat
  sessionCleared : Bool

/-- The `catchError` branch of `AuthInterceptor.intercept`
(`part_004:69-88`) composed with `handleTokenRefresh` (`part_004:110-176`)
for a protected request sent with a token (`currentToken` present, fresh
interceptor state, so `isRefreshing` is false on entry). -/
def runProtectedRequest (firstOutcome : HttpOutcome)
    (hasRefreshToken refreshTokenExpired : Bool)
    (refreshOut : RefreshOutcome) (retryOutcome : HttpOutcome) : InterceptTrace :=
  match firstOutcome with
  | .success b => { result := .ok b, requestsSent := 1, refreshNetworkCalls := 0, sessionCleared := false }
  | .httpError st msg =>
    if st == 401 then
      if !hasRefreshToken then
        { result := .error (.js "No refresh token available"),
          requestsSent := 1, refreshNetworkCalls := 0, sessionCleared := false }
      else if refreshTokenExpired then
        { result := .error (.js "Refresh token expired"),
          requestsSent := 1, refreshNetworkCalls := 0, sessionCleared := true }
      else
        match refreshOut with
        | .refreshed newTok =>
          let _ := newTok
          match retryOutcome with
          | .success b =>
            { result := .ok b, requestsSent := 2, refreshNetworkCalls := 1, sessionCleared := false }
          | .httpError st2 msg2 =>
            { result := .error (.http st2 msg2), requestsSent := 2, refreshNetworkCalls := 1,
              sessionCleared := interceptorFailureSignalsInvalid st2 msg2 }
        | .refreshedNoToken =>
          { result := .error (.js "Refreshed token is missing"),
            requestsSent := 1, refreshNetworkCalls := 1, sessionCleared := true }
        | .refreshFailed st2 msg2 =>
          { result := .error (.http st2 msg2), requestsSent := 1, refreshNetworkCalls := 1,
            sessionCleared := interceptorFailureSignalsInvalid st2 msg2 }
    else
      { result := .error (.http st msg), requestsSent := 1, refreshNetworkCalls := 0,
        sessionCleared := false }

/-! ## Concrete states used to instantiate the theorems -/

/-- Coordination state before any refresh: nothing pending. -/
def refreshInit : RefreshCoordState :=
  { interceptorRefreshing := false, appRefreshing := false, subjectValue := none,
    waiters := [], networkRefreshCalls := 0, delivered := [] }

/-- Coordination state with a refresh pending at both call sites and one
queued interceptor waiter. -/
def pendingRefreshState : RefreshCoordState :=
  { interceptorRefreshing := true, appRefreshing := true, subjectValue := none,
    waiters := [7], networkRefreshCalls := 1, delivered := [] }

/-- Detail-page state whose tree already holds reply `"r"` under parent
`"p"`, with a counter of 1. -/
def dupReplyState : DetailState :=
  { articleId := "a1",
    comments := [Comment.node "p" "a1" "parent" [Comment.node "r" "a1" "child" []]],
    article := some { commentCount := 1 } }

/-- A duplicate delivery of reply `"r"` to parent `"p"`. -/
def dupReplyEvent : NewCommentEvent :=
  { comment := Comment.node "r" "a1" "child" [], parentCommentId := some "p" }

/-- A root comment `"c1"` with two nested replies (`"r1"`, and `"r2"`
under `"r1"`). -/
def threeNodeTree : List Comment :=
  [Comment.node "c1" "a" "x" [Comment.node "r1" "a" "y" [Comment.node "r2" "a" "z" []]]]

/-- Detail-page state holding `threeNodeTree` with a counter of 5. -/
def threeNodeState : DetailState :=
  { articleId := "a", comments := threeNodeTree, article := some { commentCount := 5 } }

/-- Detail-page state holding `threeNodeTree` with a counter of 1 —
smaller than the subtree about to be deleted. -/
def lowCountState : DetailState :=
  { articleId := "a", comments := threeNodeTree, article := some { commentCount := 1 } }

/-- A fresh socket-service state: no socket, no pending connection. -/
def socketInit : SocketState :=
  { socket := none, isConnecting := false, listenersSetup := false,
    ioCalls := 0, listenerSetups := 0 }

/-- A fully populated persisted session. -/
def fullStore : SessionStore :=
  { token := some "A", refreshToken := some "R", user := some "U", viewedArticles := some "V" }

/-! # Theorems -/

/-- C2: `isTokenExpired` returns true for every token whose decoded
expiry claim lies in the past, false for every token whose payload
decodes to an expiry in the future, and true for any input that cannot be
decoded, including null (decode failure is treated as expired,
fail-closed). -/
theorem isTokenExpired_spec (nowMs exp : Int) :
    (exp * 1000 < nowMs → isTokenExpired (some (some (some exp))) nowMs = true) ∧
    (nowMs < exp * 1000 → isTokenExpired (some (some (some exp))) nowMs = false) ∧
    isTokenExpired (some none) nowMs = true ∧
    isTokenExpired none nowMs = true := by
  refine ⟨fun h => ?_, fun h => ?_, rfl, rfl⟩
  · simp [isTokenExpired, h]
  · simp [isTokenExpired]
    omega

/-- Witness for C2 at concrete expiries. -/
theorem isTokenExpired_spec_witness :
    isTokenExpired (some (some (some 1))) 2000 = true ∧
    isTokenExpired (some (some (some 2))) 1000 = false :=
  ⟨(isTokenExpired_spec 2000 1).1 (by norm_num),
   (isTokenExpired_spec 1000 2).2.1 (by norm_num)⟩

/-- C7: after `logout()` completes, all four persisted keys are removed,
regardless of whether the best-effort server-side logout call succeeds or
fails, and a server failure never restores any of them. -/
theorem logout_clears_all_keys (s : SessionStore) (server : ServerResult) :
    (logout s server).token = none ∧ (logout s server).refreshToken = none ∧
    (logout s server).user = none ∧ (logout s server).viewedArticles = none := by
  cases server <;> cases h : s.token <;> simp [logout, clearLocalStorage, h]

/-- C6: calling `connect()` twice in immediate succession while the first
call's connection attempt is still pending results in exactly one
connection opened and exactly one installed listener set; the second call
is a no-op. (`h3` excludes the unreachable configuration of an installed
listener set with no socket: `disconnect()` and the cleanup path always
reset `listenersSetup` when they drop the socket.) -/
theorem connect_twice_single_connection (s : SocketState)
    (h1 : s.isConnected = false) (h2 : s.isConnecting = false)
    (h3 : s.socket = none → s.listenersSetup = false) :
    connect (connect s) = connect s ∧
    (connect s).ioCalls = s.ioCalls + 1 ∧
    (connect s).listenerSetups = s.listenerSetups + 1 := by
  cases hs : s.socket with
  | none =>
    have hls := h3 hs
    simp [connect, setupEventListeners, SocketState.isConnected, hs, h2, hls]
  | some sock =>
    have hc : sock.connected = false := by
      simpa [SocketState.isConnected, hs] using h1
    simp [connect, setupEventListeners, SocketState.isConnected, hs, h2, hc]

/-- Witness for C6 from the fresh socket-service state. -/
theorem connect_twice_single_connection_witness :
    connect (connect socketInit) = connect socketInit ∧
    (connect socketInit).ioCalls = 1 ∧
    (connect socketInit).listenerSetups = 1 :=
  connect_twice_single_connection socketInit rfl rfl (fun _ => rfl)

/-- C1 counterexample: with the interceptor's refresh already pending
(one network call issued), the next expiry-watch tick — guarded only by
the app component's own separate flag — issues a second network refresh
call, so "exactly one network call" fails for this mixed set of callers. -/
theorem concurrentRefresh_two_network_calls :
    (interceptorRefresh refreshInit 1 true false).interceptorRefreshing = true ∧
    (interceptorRefresh refreshInit 1 true false).networkRefreshCalls = 1 ∧
    (watchTick (interceptorRefresh refreshInit 1 true false) true).networkRefreshCalls = 2 :=
  ⟨rfl, rfl, rfl⟩

/-- C1 amended: each coordinator is single-flight on its own. While the
interceptor's refresh is pending, a further interceptor caller issues no
network call and is queued on the shared subject; while the watch's
refresh is pending, a further tick issues no call; and when the
interceptor's refresh resolves, every queued caller receives the same
token. (The two coordinators use separate flags, so one caller of each
can issue two concurrent network calls — see the counterexample.) -/
theorem singleFlight_per_coordinator (s : RefreshCoordState) (caller : Nat)
    (hasRT rtExp accessExpired : Bool) (tok : String) :
    (s.interceptorRefreshing = true →
      interceptorRefresh s caller hasRT rtExp = { s with waiters := s.waiters ++ [caller] }) ∧
    (s.appRefreshing = true → watchTick s accessExpired = s) ∧
    (interceptorRefreshResolved s tok).delivered
      = s.delivered ++ s.waiters.map (fun w => (w, tok)) := by
  refine ⟨fun h => ?_, fun h => ?_, rfl⟩
  · simp [interceptorRefresh, h]
  · simp [watchTick, h]

/-- Witness for C1's amended statement at a pending state. -/
theorem singleFlight_per_coordinator_witness :
    interceptorRefresh pendingRefreshState 9 true false
      = { pendingRefreshState with waiters := [7, 9] } ∧
    watchTick pendingRefreshState true = pendingRefreshState ∧
    (interceptorRefreshResolved pendingRefreshState "t2").delivered = [(7, "t2")] := by
  obtain ⟨a, b, c⟩ := singleFlight_per_coordinator pendingRefreshState 9 true false true "t2"
  exact ⟨a rfl, b rfl, c⟩

/-- C8: a protected request sent with an attached token that receives a
401 triggers exactly one refresh and is retried exactly once with the new
token; a failure of the retried request is surfaced to the caller rather
than triggering a further refresh-retry cycle. -/
theorem retry_exactly_once_after_401 (msg : Option String)
    (refreshOut : RefreshOutcome) (retryOutcome : HttpOutcome) :
    (runProtectedRequest (.httpError 401 msg) true false refreshOut retryOutcome).refreshNetworkCalls = 1 ∧
    (runProtectedRequest (.httpError 401 msg) true false refreshOut retryOutcome).requestsSent ≤ 2 ∧
    ∀ newTok, refreshOut = .refreshed newTok →
      (runProtectedRequest (.httpError 401 msg) true false refreshOut retryOutcome).requestsSent = 2 ∧
      (∀ b, retryOutcome = .success b →
        (runProtectedRequest (.httpError 401 msg) true false refreshOut retryOutcome).result = .ok b) ∧
      (∀ st2 m2, retryOutcome = .httpError st2 m2 →
        (runProtectedRequest (.httpError 401 msg) true false refreshOut retryOutcome).result
          = .error (.http st2 m2)) := by
  cases refreshOut <;> cases retryOutcome <;> simp [runProtectedRequest]

/-- Witness for C8: refresh succeeds, the retried request fails with 500;
the error is surfaced after exactly two requests and one refresh. -/
theorem retry_exactly_once_after_401_witness :
    (runProtectedRequest (.httpError 401 none) true false (.refreshed "T") (.httpError 500 none)).requestsSent = 2 ∧
    (runProtectedRequest (.httpError 401 none) true false (.refreshed "T") (.httpError 500 none)).result
      = .error (.http 500 none) ∧
    (runProtectedRequest (.httpError 401 none) true false (.refreshed "T") (.httpError 500 none)).refreshNetworkCalls = 1 := by
  obtain ⟨h1, _, h3⟩ := retry_exactly_once_after_401 none (.refreshed "T") (.httpError 500 none)
  obtain ⟨r2, _, rerr⟩ := h3 "T" rfl
  exact ⟨r2, rerr 500 none rfl, h1⟩

/-- C9 counterexample: a transport-level refresh failure (status 0, no
server message) hits the expiry watch while the stored refresh token is
expired by the local clock; the watch logs out, clearing the persisted
token — so a transient network failure does not always leave the session
unchanged. -/
theorem networkFailure_clears_session_cex :
    watchFailureSignalsInvalid 0 none = false ∧
    watchOnRefreshError 1000 0 none (some (some (some 500))) = true ∧
    (watchOnRefreshErrorStore fullStore 1000 0 none (some (some (some 500))) .ok).token = none :=
  ⟨rfl, rfl, rfl⟩

/-- C9 amended: the interceptor site clears the persisted session exactly
on an explicit invalid/expired signal (HTTP 401 or a message containing
"expired"/"invalid") and otherwise leaves the store untouched; the expiry
watch keeps the session on a non-signal failure when the stored refresh
token is present, parseable, and not yet expired by the local clock, but
logs out — even on a network failure — when that token is missing. -/
theorem refreshFailure_session_policy (store : SessionStore) (now status : Int)
    (msg : Option String) (exp : Int) :
    (interceptorFailureSignalsInvalid status msg = false →
      interceptorOnRefreshError store status msg = store) ∧
    (interceptorFailureSignalsInvalid status msg = true →
      interceptorOnRefreshError store status msg
        = { token := none, refreshToken := none, user := none, viewedArticles := none }) ∧
    (watchFailureSignalsInvalid status msg = false →
      (exp == 0 || decide (now < exp)) = true →
      watchOnRefreshError now status msg (some (some (some exp))) = false) ∧
    (watchFailureSignalsInvalid status msg = false →
      watchOnRefreshError now status msg none = true) := by
  refine ⟨fun h => ?_, fun h => ?_, fun h h' => ?_, fun h => ?_⟩
  · simp [interceptorOnRefreshError, h]
  · simp [interceptorOnRefreshError, h, clearLocalStorage]
  · cases h0 : (exp == 0) with
    | true => simp [watchOnRefreshError, h, h0]
    | false =>
      simp [h0] at h'
      simp [watchOnRefreshError, h, h0]
      omega
  · simp [watchOnRefreshError, h]

/-- Witness for C9's amended statement: a status-0, message-free failure
leaves the full store untouched at the interceptor site, and does not log
out at the watch site while the refresh token is still fresh. -/
theorem refreshFailure_session_policy_witness :
    interceptorOnRefreshError fullStore 0 none = fullStore ∧
    watchOnRefreshError 10 0 none (some (some (some 20))) = false := by
  obtain ⟨h1, _, h3, _⟩ := refreshFailure_session_policy fullStore 10 0 none 20
  exact ⟨h1 rfl, h3 rfl (by decide)⟩

/-! ## Lemmas about the comment-tree operations -/

/-- If the predicate misses everywhere in `l` and hits `x`, JavaScript
`findIndex` on `l ++ [x]` finds exactly the appended slot. -/
theorem jsFindIndex_append_none {α : Type} {p : α → Bool} {l : List α}
    (h : jsFindIndex p l = none) (x : α) (hx : p x = true) :
    jsFindIndex p (l ++ [x]) = some l.length := by
  induction l with
  | nil => simp [jsFindIndex, hx]
  | cons y ys ih =>
    cases hy : p y with
    | true => rw [jsFindIndex, hy] at h; simp at h
    | false =>
      rw [jsFindIndex, hy] at h
      simp only [if_neg Bool.false_ne_true, Option.map_eq_none'] at h
      simp [jsFindIndex, hy, ih h]

/-- Overwriting the freshly appended last slot with the same element is a
no-op. -/
theorem set_append_length {α : Type} (l : List α) (x y : α) :
    (l ++ [x]).set l.length y = l ++ [y] := by
  induction l with
  | nil => rfl
  | cons z zs ih => simp [List.set, ih]

/-- Writing the same element to the same slot twice equals writing it
once. -/
theorem set_set_self {α : Type} (l : List α) (i : Nat) (y : α) :
    (l.set i y).set i y = l.set i y := by
  induction l generalizing i with
  | nil => rfl
  | cons z zs ih =>
    cases i with
    | zero => rfl
    | succ n => simp [List.set, ih]

/-- Replacing the first hit of the predicate with another hit keeps the
first-hit index. -/
theorem jsFindIndex_set {α : Type} {p : α → Bool} {l : List α} {i : Nat}
    (h : jsFindIndex p l = some i) (y : α) (hy : p y = true) :
    jsFindIndex p (l.set i y) = some i := by
  induction l generalizing i with
  | nil => simp [jsFindIndex] at h
  | cons z zs ih =>
    cases hz : p z with
    | true =>
      rw [jsFindIndex, hz] at h
      simp at h
      subst h
      simp [List.set, jsFindIndex, hy]
    | false =>
      rw [jsFindIndex, hz] at h
      simp only [if_neg Bool.false_ne_true, Option.map_eq_some'] at h
      obtain ⟨j, hj, hji⟩ := h
      subst hji
      simp [List.set, jsFindIndex, hz, ih hj]

/-- `findAndAdd` maps the list elementwise, so it preserves length. -/
theorem findAndAdd_length (pid : String) (r : Comment) (cs : List Comment) :
    (findAndAdd pid r cs).length = cs.length := by
  induction cs with
  | nil => simp [findAndAdd]
  | cons c rest ih =>
    cases c with
    | node i a p rs => simp [findAndAdd, ih]

/-- Applying `findAndAdd` for the same reply twice yields the tree of a
single application: on the second pass the duplicate guard finds the
reply already in place and overwrites it with itself. -/
theorem findAndAdd_idem (pid : String) (r : Comment) (cs : List Comment) :
    findAndAdd pid r (findAndAdd pid r cs) = findAndAdd pid r cs := by
  induction cs using findAndAdd.induct pid r with
  | case1 => simp [findAndAdd]
  | case2 i a p rs rest ihrs ihrest =>
    by_cases hpid : (i == pid) = true
    · cases hfi : jsFindIndex (fun x => x.cid == r.cid) rs with
      | none =>
        simp [findAndAdd, hpid, hfi,
          jsFindIndex_append_none hfi r (by simp), set_append_length, ihrest]
      | some idx =>
        simp [findAndAdd, hpid, hfi,
          jsFindIndex_set hfi r (by simp), set_set_self, ihrest]
    · by_cases hlen : rs.length > 0
      · simp [findAndAdd, hpid, hlen, findAndAdd_length, ihrs, ihrest]
      · simp [findAndAdd, hpid, hlen, ihrest]

/-- Splitting a false Boolean disjunction. -/
theorem bool_or_false {a b : Bool} (h : (a || b) = false) : a = false ∧ b = false := by
  cases a <;> cases b <;> simp_all

/-- The component's loop-accumulated count agrees with the spec-side
recursive subtree-size sum. -/
theorem countAllComments_eq_subtreeSizeList (cs : List Comment) :
    countAllComments cs = subtreeSizeList cs := by
  induction cs using countAllComments.induct with
  | case1 => simp [countAllComments, subtreeSizeList]
  | case2 i a p rs rest ihrs ihrest =>
    by_cases hlen : rs.length > 0
    · simp [countAllComments, subtreeSizeList, subtreeSize, hlen, ihrs, ihrest]
    · have hnil : rs = [] := List.length_eq_zero.mp (by omega)
      subst hnil
      simp [countAllComments, subtreeSizeList, subtreeSize, ihrest]

/-- When `findCommentAndCount` finds a node, the count it reports is the
size of that node's subtree (the node plus all nested replies, counted
recursively). -/
theorem findCommentAndCount_count (cid : String) (cs : List Comment) :
    ∀ c k, findCommentAndCount cid cs = (some c, k) → k = subtreeSize c := by
  induction cs using findCommentAndCount.induct cid with
  | case1 => intro c k h; simp [findCommentAndCount] at h
  | case2 i a p rs rest hid =>
    intro c k h
    rw [findCommentAndCount, if_pos hid] at h
    simp only [Prod.mk.injEq, Option.some.injEq] at h
    obtain ⟨hc, hk⟩ := h
    subst hc
    subst hk
    by_cases hlen : rs.length > 0
    · simp [subtreeSize, hlen, countAllComments_eq_subtreeSizeList]
    · have hnil : rs = [] := List.length_eq_zero.mp (by omega)
      subst hnil
      simp [subtreeSize, subtreeSizeList]
  | case3 i a p rs rest hid hlen f k' hfr ih =>
    intro c k h
    rw [findCommentAndCount, if_neg hid, if_pos hlen, hfr] at h
    simp only [Prod.mk.injEq, Option.some.injEq] at h
    obtain ⟨hc, hk⟩ := h
    subst hc
    subst hk
    exact ih f k' hfr
  | case4 i a p rs rest hid hlen snd hfr ihrs ihrest =>
    intro c k h
    rw [findCommentAndCount, if_neg hid, if_pos hlen, hfr] at h
    exact ihrest c k h
  | case5 i a p rs rest hid hlen ih =>
    intro c k h
    rw [findCommentAndCount, if_neg hid, if_neg hlen] at h
    exact ih c k h

/-- `findAndRemove` leaves no node with the removed id anywhere in the
result. -/
theorem containsComment_findAndRemove (cid : String) (cs : List Comment) :
    containsComment cid (findAndRemove cid cs) = false := by
  induction cs using findAndRemove.induct cid with
  | case1 => simp [findAndRemove, containsComment]
  | case2 i a p rs rest hid ihrest =>
    simp [findAndRemove, hid, ihrest]
  | case3 i a p rs rest hid ihrs ihrest =>
    simp [findAndRemove, containsComment, hid, ihrs, ihrest]

/-- Removing an id that occurs nowhere leaves the forest unchanged. -/
theorem findAndRemove_of_not_contains (cid : String) (cs : List Comment) :
    containsComment cid cs = false → findAndRemove cid cs = cs := by
  induction cs using findAndRemove.induct cid with
  | case1 => intro _; simp [findAndRemove]
  | case2 i a p rs rest hid ihrest =>
    intro h
    rw [containsComment] at h
    obtain ⟨h12, _⟩ := bool_or_false h
    obtain ⟨h1, _⟩ := bool_or_false h12
    rw [hid] at h1
    simp at h1
  | case3 i a p rs rest hid ihrs ihrest =>
    intro h
    rw [containsComment] at h
    obtain ⟨h12, h3⟩ := bool_or_false h
    obtain ⟨h1, h2⟩ := bool_or_false h12
    simp [findAndRemove, hid, ihrs h2, ihrest h3]

/-- Searching for an id that occurs nowhere yields the not-found fallback
`(null, 1)`. -/
theorem findCommentAndCount_of_not_contains (cid : String) (cs : List Comment) :
    containsComment cid cs = false → findCommentAndCount cid cs = (none, 1) := by
  induction cs using findCommentAndCount.induct cid with
  | case1 => intro _; simp [findCommentAndCount]
  | case2 i a p rs rest hid =>
    intro h
    rw [containsComment] at h
    obtain ⟨h12, _⟩ := bool_or_false h
    obtain ⟨h1, _⟩ := bool_or_false h12
    rw [hid] at h1
    simp at h1
  | case3 i a p rs rest hid hlen f k' hfr ihrs =>
    intro h
    rw [containsComment] at h
    obtain ⟨h12, _⟩ := bool_or_false h
    obtain ⟨_, h2⟩ := bool_or_false h12
    rw [ihrs h2] at hfr
    simp at hfr
  | case4 i a p rs rest hid hlen snd hfr ihrs ihrest =>
    intro h
    rw [containsComment] at h
    obtain ⟨_, h3⟩ := bool_or_false h
    rw [findCommentAndCount, if_neg hid, if_pos hlen, hfr]
    exact ihrest h3
  | case5 i a p rs rest hid hlen ih =>
    intro h
    rw [containsComment] at h
    obtain ⟨_, h3⟩ := bool_or_false h
    rw [findCommentAndCount, if_neg hid, if_neg hlen]
    exact ih h3

/-- C3: applying the same `newComment` event twice yields the same
comment tree as applying it once — for replies (with `parentCommentId`)
and root comments alike, the second delivery does not insert a second
entry with the same id anywhere in the tree. -/
theorem newComment_idempotent_on_tree (st : DetailState) (ev : NewCommentEvent) :
    (handleNewComment (handleNewComment st ev) ev).comments
      = (handleNewComment st ev).comments := by
  by_cases hm : (ev.comment.articleOf == st.articleId) = true
  · cases hp : ev.parentCommentId with
    | some pid => simp [handleNewComment, hm, hp, findAndAdd_idem]
    | none =>
      cases hfi : jsFindIndex (fun c => c.cid == ev.comment.cid) st.comments with
      | some i => simp [handleNewComment, hm, hp, hfi]
      | none =>
        have happ : jsFindIndex (fun c => c.cid == ev.comment.cid)
            (st.comments ++ [ev.comment]) = some st.comments.length :=
          jsFindIndex_append_none hfi ev.comment (by simp)
        simp [handleNewComment, hm, hp, hfi, happ]
  · simp [handleNewComment, hm]

/-- C4 counterexample: delivering a reply event whose reply already sits
under its parent leaves the tree unchanged (the duplicate guard replaces
the reply with itself), yet the article counter is still incremented from
1 to 2 — the reply branch increments unconditionally. -/
theorem duplicateReply_still_increments :
    (handleNewComment dupReplyState dupReplyEvent).comments = dupReplyState.comments ∧
    (handleNewComment dupReplyState dupReplyEvent).article = some { commentCount := 2 } := by
  constructor
  · simp [handleNewComment, dupReplyState, dupReplyEvent, findAndAdd, jsFindIndex,
      Comment.cid, Comment.articleOf]
  · rfl

/-- C4 amended: for root comments the counter is incremented exactly when
the duplicate guard admits the insertion; for replies the counter is
incremented unconditionally once the event passes the article guard, even
when the duplicate guard suppressed the insertion. -/
theorem commentCounter_increment_policy (st : DetailState) (ev : NewCommentEvent) (a : Article)
    (hart : st.article = some a) (hmatch : (ev.comment.articleOf == st.articleId) = true) :
    (∀ pid, ev.parentCommentId = some pid →
      (handleNewComment st ev).article = some { commentCount := a.commentCount + 1 }) ∧
    (ev.parentCommentId = none →
      (∀ i, jsFindIndex (fun c => c.cid == ev.comment.cid) st.comments = some i →
        (handleNewComment st ev).article = some a) ∧
      (jsFindIndex (fun c => c.cid == ev.comment.cid) st.comments = none →
        (handleNewComment st ev).article = some { commentCount := a.commentCount + 1 })) := by
  refine ⟨fun pid hpid => ?_, fun hroot => ⟨fun i hdup => ?_, fun hnew => ?_⟩⟩
  · simp [handleNewComment, hmatch, hpid, bumpCommentCount, hart]
  · simp [handleNewComment, hmatch, hroot, hdup, hart]
  · simp [handleNewComment, hmatch, hroot, hnew, bumpCommentCount, hart]

/-- Witness for C4's amended statement: the duplicate-reply event bumps
the counter from 1 to 2 despite inserting nothing. -/
theorem commentCounter_increment_policy_witness :
    (handleNewComment dupReplyState dupReplyEvent).article = some { commentCount := 2 } :=
  (commentCounter_increment_policy dupReplyState dupReplyEvent { commentCount := 1 }
    rfl rfl).1 "p" rfl

/-- C5 counterexample: in a state whose counter (1) is smaller than the
subtree about to be removed (comment `"c1"` with 2 nested replies,
subtree size 3), the handler clamps the counter to 0 instead of
decrementing it by the subtree size — `Math.max(0, 1 - 3)` is 0, not
`1 - 3`. -/
theorem commentDeleted_clamped_cex :
    subtreeSize (Comment.node "c1" "a" "x"
      [Comment.node "r1" "a" "y" [Comment.node "r2" "a" "z" []]]) = 3 ∧
    (removeCommentFromList lowCountState "c1").article = some { commentCount := 0 } ∧
    (removeCommentFromList lowCountState "c1").article
      ≠ some { commentCount := (1 : Int) - 3 } := by
  have hfind : findCommentAndCount "c1" threeNodeTree
      = (some (Comment.node "c1" "a" "x"
          [Comment.node "r1" "a" "y" [Comment.node "r2" "a" "z" []]]), 3) := by
    simp [threeNodeTree, findCommentAndCount, countAllComments]
  have hart : (removeCommentFromList lowCountState "c1").article
      = some { commentCount := max 0 ((1 : Int) - ((3 : Nat) : Int)) } := by
    simp only [removeCommentFromList, lowCountState, hfind, Option.map_some']
  refine ⟨by simp [subtreeSize, subtreeSizeList], ?_, ?_⟩
  · rw [hart]; decide
  · rw [hart]; decide

/-- C5 amended: when the deleted id is found in the tree, the handler
removes that node (searched recursively) and sets the article counter to
`max 0 (previous − subtree size)`, the subtree size being the comment
plus all nested replies counted recursively — a decrement by the subtree
size, clamped at zero when the subtree size exceeds the counter. -/
theorem commentDeleted_decrement_clamped (st : DetailState) (cid : String)
    (c : Comment) (k : Nat) (a : Article)
    (hfind : findCommentAndCount cid st.comments = (some c, k))
    (hart : st.article = some a) :
    k = subtreeSize c ∧
    containsComment cid (removeCommentFromList st cid).comments = false ∧
    (removeCommentFromList st cid).article
      = some { commentCount := max 0 (a.commentCount - (subtreeSize c : Int)) } := by
  have hks : k = subtreeSize c := findCommentAndCount_count cid st.comments c k hfind
  refine ⟨hks, ?_, ?_⟩
  · simp [removeCommentFromList, containsComment_findAndRemove]
  · subst hks
    simp [removeCommentFromList, hart, hfind]

/-- Witness for C5's amended statement: deleting comment `"c1"`, which
has 2 nested replies, removes it and decrements the counter by exactly 3
(5 → 2, no clamping since 5 ≥ 3). -/
theorem commentDeleted_decrement_clamped_witness :
    subtreeSize (Comment.node "c1" "a" "x"
      [Comment.node "r1" "a" "y" [Comment.node "r2" "a" "z" []]]) = 3 ∧
    (removeCommentFromList threeNodeState "c1").article = some { commentCount := 2 } ∧
    containsComment "c1" (removeCommentFromList threeNodeState "c1").comments = false := by
  have hfind : findCommentAndCount "c1" threeNodeState.comments
      = (some (Comment.node "c1" "a" "x"
          [Comment.node "r1" "a" "y" [Comment.node "r2" "a" "z" []]]), 3) := by
    simp [threeNodeState, threeNodeTree, findCommentAndCount, countAllComments]
  have hsz : subtreeSize (Comment.node "c1" "a" "x"
      [Comment.node "r1" "a" "y" [Comment.node "r2" "a" "z" []]]) = 3 := by
    simp [subtreeSize, subtreeSizeList]
  obtain ⟨_, h2, h3⟩ := commentDeleted_decrement_clamped threeNodeState "c1"
    (Comment.node "c1" "a" "x" [Comment.node "r1" "a" "y" [Comment.node "r2" "a" "z" []]])
    3 { commentCount := 5 } hfind rfl
  refine ⟨hsz, ?_, h2⟩
  rw [h3, hsz]
  decide

/-- C10: a `commentDeleted` event whose id is nowhere in the tree leaves
the tree unchanged, yet still decrements the article counter by one (the
not-found fallback counts 1), clamped at zero. -/
theorem commentDeleted_notFound_decrements_one (st : DetailState) (cid : String) (a : Article)
    (hnot : containsComment cid st.comments = false)
    (hart : st.article = some a) :
    (removeCommentFromList st cid).comments = st.comments ∧
    (removeCommentFromList st cid).article
      = some { commentCount := max 0 (a.commentCount - 1) } := by
  have h1 := findCommentAndCount_of_not_contains cid st.comments hnot
  have h2 := findAndRemove_of_not_contains cid st.comments hnot
  constructor
  · simp [removeCommentFromList, h2]
  · simp [removeCommentFromList, hart, h1]

/-- Witness for C10: deleting the absent id `"zz"` leaves the tree alone
and drops the counter from 5 to 4. -/
theorem commentDeleted_notFound_decrements_one_witness :
    (removeCommentFromList threeNodeState "zz").comments = threeNodeState.comments ∧
    (removeCommentFromList threeNodeState "zz").article = some { commentCount := 4 } := by
  have hnot : containsComment "zz" threeNodeState.comments = false := by
    simp [threeNodeState, threeNodeTree, containsComment]
  obtain ⟨h1, h2⟩ := commentDeleted_notFound_decrements_one threeNodeState "zz"
    { commentCount := 5 } hnot rfl
  refine ⟨h1, ?_⟩
  rw [h2]
  decide

end Blog
